import Mathlib

/-! Verification of the carraffleodds scraping pipeline against its specification.

The definitions below are a shallow embedding of the TypeScript sources:
* `src/lib/utils.ts`   — classification & metrics engine (pure functions);
* `src/scrapers/base.ts` — persistence layer (`persistScrapeResult`), modelled as a
  pure state transformer over a keyed raffle table (the database table has a unique
  (site_id, external_id) key, so a function store is a faithful model; database
  write errors are external and modelled as always succeeding);
* the Dream Car Giveaways scraper (`scrape` detail-page loop with fallback);
* `scripts/scraper-service.ts` — the job lock (`runWithLock`).

JavaScript numbers are modelled as `ℚ` (the pipeline only performs exact
divisions, `Math.round` and `toFixed(2)` rounding on values far below the range
where binary floating point would diverge from rational arithmetic on the
claims considered).  JavaScript `Date` values are modelled as milliseconds
since the epoch (`ℚ`).  `null`/`undefined` are modelled as `Option`.
-/

namespace CarRaffleOdds

-- ===========================================================
-- Enumerations from src/lib/types.ts
-- ===========================================================

/-- The `PrizeType` from types.ts. -/
inductive PrizeType where
  | car | cash | tech | watch | holiday | house | motorcycle | other
  deriving DecidableEq, Repr

/-- The `CarCategory` from types.ts. -/
inductive CarCategory where
  | performance | luxury | electric | suv | sedan | supercar | classic | van | other
  deriving DecidableEq, Repr

/-- The `RaffleStatus` from types.ts. -/
inductive RaffleStatus where
  | active | ending_soon | sold_out | drawn | cancelled
  deriving DecidableEq, Repr

-- ===========================================================
-- String helpers modelling JavaScript string primitives
-- ===========================================================

/-- Models `String.prototype.toLowerCase` (character-wise; all patterns in the
source are ASCII, where this agrees with JavaScript). -/
def lowerStr (s : String) : String := ⟨s.data.map Char.toLower⟩

/-- The `startsWithB pat l` : does `l` start with `pat`? -/
def startsWithB : List Char → List Char → Bool
  | [], _ => true
  | _ :: _, [] => false
  | a :: as, b :: bs => a == b && startsWithB as bs

/-- The `containsL pat l` : does `pat` occur as a contiguous run inside `l`? -/
def containsL (pat : List Char) : List Char → Bool
  | [] => startsWithB pat []
  | c :: t => startsWithB pat (c :: t) || containsL pat t

/-- Models `s.includes(pat)` from JavaScript. -/
def strIncludes (s pat : String) : Bool := containsL pat.data s.data

/-- Does any pattern in the list occur in `s`?  (Models the
`for (const p of pats) if (s.includes(p)) ...` loops of `classifyPrizeType`.) -/
def hasAny (pats : List String) (s : String) : Bool :=
  pats.any (fun p => strIncludes s p)

-- ===========================================================
-- Keyword tables from src/lib/utils.ts
-- ===========================================================

/-- The `PRIZE_TYPE_RULES.car` from utils.ts. -/
def CAR_KEYWORDS : List String := [
  "bmw", "audi", "mercedes", "ferrari", "lamborghini", "porsche", "mclaren",
  "volkswagen", "ford focus", "ford fiesta", "ford mustang", "ford escort",
  "ford transit", "ford ranger",
  "honda civic", "honda type", "toyota supra", "toyota gr", "nissan gtr", "nissan gt-r", "nissan skyline",
  "range rover", "land rover", "bentley", "rolls royce", "tesla",
  "volvo xc", "volvo v", "volvo s", "vauxhall", "mini cooper",
  "jaguar", "aston martin", "defender", "motorhome", "campervan",
  "peugeot", "seat ", "skoda", "fiat ", "alfa romeo", "maserati",
  "suzuki jimny", "suzuki swift",
  "transit connect", "transporter", "camper",
  "car giveaway", "free car"]

/-- The `PRIZE_TYPE_RULES.motorcycle` from utils.ts. -/
def MOTORCYCLE_KEYWORDS : List String := [
  "ducati", "kawasaki ninja", "yamaha r1", "yamaha mt",
  "motorcycle", "motorbike", "panigale",
  "honda cb", "triumph street", "triumph speed",
  "fireblade", "hayabusa",
  "sur ron", "surron"]

/-- The `PRIZE_TYPE_RULES.cash` from utils.ts. -/
def CASH_KEYWORDS : List String := [
  "tax free cash", "win £"]

/-- The `PRIZE_TYPE_RULES.watch` from utils.ts. -/
def WATCH_KEYWORDS : List String := [
  "rolex", "tag heuer", "omega", "breitling", "cartier",
  "watch", "patek", "audemars", "tissot", "swatch"]

/-- The `PRIZE_TYPE_RULES.tech` from utils.ts. -/
def TECH_KEYWORDS : List String := [
  "iphone", "macbook", "ipad", "samsung", "playstation", "ps5",
  "xbox", "nintendo", "switch", "gaming", "apple", "pixel",
  "laptop", "tv ", "smart tv", "steam deck", "alienware",
  "dyson", "imac"]

/-- The `PRIZE_TYPE_RULES.holiday` from utils.ts. -/
def HOLIDAY_KEYWORDS : List String := [
  "holiday", "tui voucher", "travel", "getaway", "spa break",
  "tickets to"]

/-- The `PRIZE_TYPE_RULES.house` from utils.ts. -/
def HOUSE_KEYWORDS : List String := [
  "house", "home package", "property", "apartment", "flat",
  "herefordshire", "worcestershire", "cottage"]

/-- The `NOT_REAL_VEHICLE_PATTERNS` from utils.ts. -/
def NOT_REAL_VEHICLE_PATTERNS : List String := [
  "ride on", "kids", "toy", "rc ", "r/c", "1:8", "1:10", "1:16", "1:18",
  "scale", "remote control", "rtr", "hpi ", "licensed ride",
  "mini bag", "mini bundle", "mini pack",
  "gucci", "dior", "louis vuitton", "prada"]

/-- The `INSTANT_WIN_PATTERNS` from utils.ts. -/
def INSTANT_WIN_PATTERNS : List String := [
  "instant win", "guaranteed wins", "prize pot", "prize every time",
  "click & win", "click and win", "wheel of fortune", "wheel of wealth",
  "arcade", "vault",
  "cash spin", "cash scratch", "fortune builder",
  "fishing finds", "coin drop", "drop zone",
  "temple of prosperity", "pirate quest"]

-- ===========================================================
-- classifyPrizeType (utils.ts lines 286-337)
-- ===========================================================

/-- The `classifyPrizeType` from utils.ts: ordered rule evaluation over the
lower-cased title. -/
def classifyPrizeType (title : String) : PrizeType :=
  let lowerTitle := lowerStr title
  -- Check if it is an instant-win game (classified as other, not cash)
  if hasAny INSTANT_WIN_PATTERNS lowerTitle then .other
  else
    -- Check if the title contains NOT-a-real-vehicle patterns
    let isNotRealVehicle := hasAny NOT_REAL_VEHICLE_PATTERNS lowerTitle
    -- Check car first — many car prizes also mention cash alternatives
    if !isNotRealVehicle && hasAny CAR_KEYWORDS lowerTitle then .car
    -- Check motorcycle before others
    else if !isNotRealVehicle && hasAny MOTORCYCLE_KEYWORDS lowerTitle then .motorcycle
    -- Check house before cash
    else if hasAny HOUSE_KEYWORDS lowerTitle then .house
    -- Check watch before tech
    else if hasAny WATCH_KEYWORDS lowerTitle then .watch
    else if hasAny TECH_KEYWORDS lowerTitle then .tech
    else if hasAny HOLIDAY_KEYWORDS lowerTitle then .holiday
    -- Check cash last (most generic)
    else if hasAny CASH_KEYWORDS lowerTitle then .cash
    else .other

-- ===========================================================
-- classifyCarCategory (utils.ts lines 157-211)
-- ===========================================================

/-- The `CATEGORY_RULES` from utils.ts, in object-insertion order (the order
`Object.entries` iterates). -/
def CATEGORY_RULES : List (CarCategory × List String) := [
  (.supercar, ["lamborghini", "ferrari", "mclaren", "bugatti", "pagani", "koenigsegg", "aston martin"]),
  (.performance, [
    " m2 ", " m3 ", " m4 ", " m5 ", " m8 ", "m135", "m140i", "m240i", "m340",
    "rs3", "rs4", "rs5", "rs6", "rs7", "amg", "type r", "st-line",
    "vxr", "gti", "golf r", "focus rs", "civic type",
    "sti", "wrx", "gt4rs", "gt3 rs", "cayman", " 911 ", "supra", " gtr",
    "gt-r", "nismo", "gr yaris", "a45", "c63", "e63", "s63",
    "jimny"]),
  (.luxury, [
    "rolls royce", "bentley", "maybach", "range rover",
    "g wagon", "g63", "g-class", "defender"]),
  (.electric, [
    "tesla", "model 3", "model y", "model s", "model x",
    "taycan", "e-tron", "id.", "ioniq", "ev6", "enyaq",
    "polestar"]),
  (.suv, [
    "urus", "cayenne", "macan", "x3", "x5", "x7",
    "q5", "q7", "q8", "glc", "gle", "gls",
    "tiguan", "tucson", "sportage", "xc60", "xc90"]),
  (.classic, [
    "escort rs", "cosworth", "mk1", "mk2", "e30", "e36",
    "mini cooper classic", "nova gsi", "ek9", "skyline r32",
    "skyline r33", "restored", "106 rallye"]),
  (.sedan, [
    "3 series", "5 series", "a4 ", "a6 ", "c-class", "e-class",
    "s-class"]),
  (.van, ["transit", "sprinter", "vivaro", "transporter", "crafter", "camper", "ranger"]),
  (.other, [])]

/-- Models `Array.prototype.join(' ')`. -/
def joinWithSpace : List String → String
  | [] => ""
  | [s] => s
  | s :: rest => s ++ " " ++ joinWithSpace rest

/-- The `classifyCarCategory` from utils.ts.  `[title, make, model].filter(Boolean)`
drops absent and empty strings; the joined text is lower-cased and space-padded. -/
def classifyCarCategory (title : String) (make model : Option String) : CarCategory :=
  let parts := ([some title, make, model].filterMap id).filter (fun s => s ≠ "")
  let searchText := " " ++ lowerStr (joinWithSpace parts) ++ " "
  let found := CATEGORY_RULES.findSome? (fun cr =>
    if cr.1 = CarCategory.other then none
    else if cr.2.any (fun k => strIncludes searchText (lowerStr k)) then some cr.1
    else none)
  found.getD CarCategory.other

-- ===========================================================
-- Numeric helpers modelling JavaScript arithmetic
-- ===========================================================

/-- Models `Math.round` (round half toward positive infinity). -/
def jsRound (q : ℚ) : ℤ := ⌊q + 1/2⌋

/-- Models `Number(x.toFixed(2))`: round to two decimal places.  (`toFixed`
rounds half away from zero; on the non-negative values of this pipeline that
agrees with `jsRound`.) -/
def round2 (q : ℚ) : ℚ := (jsRound (q * 100) : ℚ) / 100

/-- Models the JavaScript `a || b` fallback on nullable numbers: `null` and
`0` are falsy. -/
def jsOrQ (a b : Option ℚ) : Option ℚ :=
  match a with
  | some v => if v = 0 then b else some v
  | none => b

/-- Models `x || null` on a nullable number (`0` collapses to `null`). -/
def truthyQ (a : Option ℚ) : Option ℚ := jsOrQ a none

/-- Models `x || null` on a nullable string (`""` collapses to `null`). -/
def truthyStr (a : Option String) : Option String :=
  match a with
  | some s => if s = "" then none else some s
  | none => none

-- ===========================================================
-- Metrics engine (utils.ts lines 17-151)
-- ===========================================================

/-- The `calculateOddsRatio` from utils.ts: null when total tickets is missing,
zero (falsy) or non-positive. -/
def calculateOddsRatio (totalTickets : Option ℚ) : Option ℚ :=
  match totalTickets with
  | none => none
  | some t => if t ≤ 0 then none else some t

/-- The `calculateValuePerPound` from utils.ts. -/
def calculateValuePerPound (prizeValue cashAlternative ticketPrice : Option ℚ) : Option ℚ :=
  let value := jsOrQ prizeValue cashAlternative
  match value, ticketPrice with
  | some v, some tp => if v = 0 ∨ tp ≤ 0 then none else some (v / tp)
  | _, _ => none

/-- The `calculateExpectedValue` from utils.ts. -/
def calculateExpectedValue (prizeValue cashAlternative totalTickets ticketPrice : Option ℚ) :
    Option ℚ :=
  let value := jsOrQ prizeValue cashAlternative
  match value, totalTickets, ticketPrice with
  | some v, some tt, some tp =>
      if v = 0 ∨ tt ≤ 0 ∨ tp ≤ 0 then none else some ((v / tt) / tp)
  | _, _, _ => none

/-- The input object of `calculateRaffleMetrics` (utils.ts lines 108-115). -/
structure MetricsInput where
  prizeValue : Option ℚ
  cashAlternative : Option ℚ
  totalTickets : Option ℚ
  ticketPrice : Option ℚ
  ticketsSold : Option ℚ
  endDate : Option ℚ        -- Date modelled as milliseconds since the epoch
  deriving Repr, DecidableEq

/-- The result object of `calculateRaffleMetrics` (utils.ts lines 143-150). -/
structure MetricsResult where
  tickets_remaining : Option ℚ
  percent_sold : Option ℚ
  odds_ratio : Option ℚ
  value_per_pound : Option ℚ
  expected_value : Option ℚ
  status : RaffleStatus
  deriving Repr, DecidableEq

/-- The `calculateRaffleMetrics` from utils.ts.  `now` models `Date.now()`. -/
def calculateRaffleMetrics (data : MetricsInput) (now : ℚ) : MetricsResult :=
  let ticketsRemaining : Option ℚ :=
    match data.totalTickets, data.ticketsSold with
    | some tt, some ts => some (tt - ts)
    | _, _ => none
  let percentSold : Option ℚ :=
    match data.totalTickets, data.ticketsSold with
    | some tt, some ts => if tt > 0 then some (round2 (ts / tt * 100)) else none
    | _, _ => none
  let oddsRatio := calculateOddsRatio data.totalTickets
  let valuePerPound := calculateValuePerPound data.prizeValue data.cashAlternative data.ticketPrice
  let expectedValue :=
    calculateExpectedValue data.prizeValue data.cashAlternative data.totalTickets data.ticketPrice
  -- Determine status.  A Date object is always truthy, so `else if (endDate)`
  -- tests only presence of the end date.
  let status : RaffleStatus :=
    match percentSold with
    | some p =>
        if p ≥ 100 then .sold_out
        else
          match data.endDate with
          | some e =>
              let hoursUntilEnd := (e - now) / (1000 * 60 * 60)
              if hoursUntilEnd ≤ 48 ∧ hoursUntilEnd > 0 then .ending_soon else .active
          | none => .active
    | none =>
        match data.endDate with
        | some e =>
            let hoursUntilEnd := (e - now) / (1000 * 60 * 60)
            if hoursUntilEnd ≤ 48 ∧ hoursUntilEnd > 0 then .ending_soon else .active
        | none => .active
  { tickets_remaining := ticketsRemaining
    percent_sold := percentSold
    odds_ratio := oddsRatio
    value_per_pound := valuePerPound
    expected_value := expectedValue
    status := status }

-- ===========================================================
-- Free-text parsing (utils.ts lines 367-401)
-- ===========================================================

/-- JavaScript regular-expression `\s` on the characters occurring here. -/
def isWs (c : Char) : Bool :=
  c == ' ' || c == '\t' || c == '\n' || c == '\r' || c == '\x0c' || c == '\x0b'

/-- A character matched by `[\d,]`. -/
def isDigitOrComma (c : Char) : Bool := c.isDigit || c == ','

/-- Numeric value of a digit string (models `parseFloat` on an all-digit
string, which is exact for the magnitudes involved). -/
def digitsToNat (l : List Char) : Nat :=
  l.foldl (fun acc c => acc * 10 + (c.toNat - '0'.toNat)) 0

/-- The `group.replace(/,/g, '')` then `parseFloat(...) * 100` with `Math.round`:
the group is digits-and-commas, so the product is an exact integer.  (A group
consisting solely of commas would give `NaN` in JavaScript; that corner is
unreachable in the claims considered and modelled as `0`.) -/
def groupToPence (g : List Char) : ℚ :=
  (digitsToNat (g.filter (fun c => c ≠ ',')) : ℚ) * 100

/-- Match `\s+£([\d,]+)` at the head of `l`, returning the captured group. -/
def wsPlusPoundDigits (l : List Char) : Option (List Char) :=
  let ws := l.takeWhile isWs
  if ws = [] then none
  else
    match l.drop ws.length with
    | '£' :: rest =>
        let g := rest.takeWhile isDigitOrComma
        if g = [] then none else some g
    | _ => none

/-- Match `\s*£([\d,]+)` at the head of `l`, returning the captured group. -/
def wsStarPoundDigits (l : List Char) : Option (List Char) :=
  match l.dropWhile isWs with
  | '£' :: rest =>
      let g := rest.takeWhile isDigitOrComma
      if g = [] then none else some g
  | _ => none

/-- Leftmost match of `/or\s+£([\d,]+)/` over an already lower-cased character
list (the `/i` flag of the source pattern is modelled by lower-casing the
input; the captured group contains only digits and commas, unaffected by
case). -/
def findOrAmount : List Char → Option (List Char)
  | [] => none
  | 'o' :: rest =>
      (match rest with
       | 'r' :: rest2 =>
          (match wsPlusPoundDigits rest2 with
           | some g => some g
           | none => findOrAmount rest)
       | _ => findOrAmount rest)
  | _ :: rest => findOrAmount rest

/-- Leftmost match of `/[&+]\s*£([\d,]+)/` over a character list. -/
def findAmpAmount : List Char → Option (List Char)
  | [] => none
  | c :: rest =>
      if c == '&' || c == '+' then
        match wsStarPoundDigits rest with
        | some g => some g
        | none => findAmpAmount rest
      else findAmpAmount rest

/-- Result object of `parseCashFromTitle`. -/
structure TitleCash where
  additionalCash : Option ℚ
  cashAlternative : Option ℚ
  deriving Repr, DecidableEq

/-- The `parseCashFromTitle` from utils.ts (lines 378-393): cash alternative from
`or £X`, bonus cash from `& £X` / `+ £X`, both converted from pounds to
pence. -/
def parseCashFromTitle (title : String) : TitleCash :=
  let l := (lowerStr title).data
  { additionalCash := (findAmpAmount l).map groupToPence
    cashAlternative := (findOrAmount l).map groupToPence }

/-- Match `([\d,]+\.?\d*)` at the head of `l`, returning the integer-part
group (digits and commas) and the fractional digits. -/
def numAt (l : List Char) : Option (List Char × List Char) :=
  let g := l.takeWhile isDigitOrComma
  if g = [] then none
  else
    match l.drop g.length with
    | '.' :: rest => some (g, rest.takeWhile Char.isDigit)
    | _ => some (g, [])

/-- Leftmost match of `/£?([\d,]+\.?\d*)/`. -/
def findPrice : List Char → Option (List Char × List Char)
  | [] => none
  | c :: rest =>
      match (if c == '£' then numAt rest else numAt (c :: rest)) with
      | some r => some r
      | none => findPrice rest

/-- The `parsePriceToPence` from utils.ts (lines 367-373): `"£0.79" → 79`.
`parseFloat` yields `NaN` (so the function yields null) exactly when the
comma-stripped match is empty or a bare dot. -/
def parsePriceToPence (priceStr : String) : Option ℚ :=
  match findPrice priceStr.data with
  | none => none
  | some (ip, fp) =>
      let ids := ip.filter (fun c => c ≠ ',')
      if ids = [] ∧ fp = [] then none
      else
        some ((jsRound (((digitsToNat ids : ℚ) +
          (digitsToNat fp : ℚ) / ((10 : ℚ) ^ fp.length)) * 100) : ℤ) : ℚ)

/-- Splits a character list at every occurrence of `sep`, with the semantics
of JavaScript `String.prototype.split` on a single-character separator. -/
def splitOnChar (sep : Char) : List Char → List (List Char)
  | [] => [[]]
  | c :: rest =>
      let r := splitOnChar sep rest
      if c == sep then [] :: r
      else
        match r with
        | h :: t => (c :: h) :: t
        | [] => [[c]]

/-- Models `url.split('/')`. -/
def jsSplitSlash (url : String) : List String :=
  (splitOnChar '/' url.data).map (fun l => (⟨l⟩ : String))

/-- The `extractSlugFromUrl` from utils.ts (lines 398-401):
`parts[parts.length - 1] || parts[parts.length - 2] || url`. -/
def extractSlugFromUrl (url : String) : String :=
  let parts := jsSplitSlash url
  let last := parts.getD (parts.length - 1) ""
  if last ≠ "" then last
  else
    let penult := if parts.length ≥ 2 then parts.getD (parts.length - 2) "" else ""
    if penult ≠ "" then penult else url

-- ===========================================================
-- Scraper data shapes (src/scrapers/base.ts lines 9-48)
-- ===========================================================

/-- The `ScrapedRaffle` from base.ts.  Optional (`?:`) fields are `Option`;
monetary amounts are pence. -/
structure ScrapedRaffle where
  externalId : String
  title : String
  carMake : Option String := none
  carModel : Option String := none
  carYear : Option ℚ := none
  carVariant : Option String := none
  prizeValue : Option ℚ := none
  cashAlternative : Option ℚ := none
  additionalCash : Option ℚ := none
  imageUrl : Option String := none
  sourceUrl : String
  ticketPrice : Option ℚ := none
  totalTickets : Option ℚ := none
  ticketsSold : Option ℚ := none
  percentSold : Option ℚ := none
  endDate : Option ℚ := none      -- Date as milliseconds since the epoch
  drawType : Option String := none
  deriving Repr, DecidableEq

/-- The `ScraperResult` from base.ts. -/
structure ScraperResult where
  siteName : String
  siteSlug : String
  raffles : List ScrapedRaffle
  errors : List String
  duration : ℚ
  deriving Repr, DecidableEq

-- ===========================================================
-- Persistence layer (base.ts lines 128-245)
-- ===========================================================

/-- The row written into the `raffles` table (base.ts lines 181-208). -/
structure RaffleRow where
  site_id : Nat
  external_id : String
  title : String
  prize_type : PrizeType
  car_make : Option String
  car_model : Option String
  car_year : Option ℚ
  car_variant : Option String
  car_category : Option CarCategory
  prize_value : Option ℚ
  cash_alternative : Option ℚ
  additional_cash : Option ℚ
  image_url : Option String
  source_url : String
  ticket_price : Option ℚ
  total_tickets : Option ℚ
  tickets_sold : Option ℚ
  tickets_remaining : Option ℚ
  percent_sold : Option ℚ
  odds_ratio : Option ℚ
  value_per_pound : Option ℚ
  expected_value : Option ℚ
  end_date : Option ℚ
  draw_type : Option String
  status : RaffleStatus
  last_scraped_at : ℚ
  deriving Repr, DecidableEq

/-- Key of the unique constraint on the raffles table. -/
abbrev RaffleKey := Nat × String

/-- The raffles table, modelled as its unique (site_id, external_id) key map. -/
abbrev RaffleTable := RaffleKey → Option RaffleRow

/-- The relational store visible to `persistScrapeResult`: the sites table
(slug → id) and the raffles table. -/
structure Db where
  sites : List (String × Nat)
  raffles : RaffleTable

/-- The skip test at base.ts line 156: skip free entries
(`raffle.ticketPrice != null && raffle.ticketPrice <= 0`). -/
def skipRaffle (r : ScrapedRaffle) : Bool :=
  match r.ticketPrice with
  | some p => p ≤ 0
  | none => false

/-- The row computed for one raffle inside `persistScrapeResult`
(base.ts lines 160-208): classification, cash parsing from the title as
fallback, metrics, then the literal row object. -/
def buildRow (siteId : Nat) (now : ℚ) (r : ScrapedRaffle) : RaffleRow :=
  let prizeType := classifyPrizeType r.title
  let carCategory :=
    if prizeType = PrizeType.car ∨ prizeType = PrizeType.motorcycle then
      some (classifyCarCategory r.title r.carMake r.carModel)
    else none
  let titleCash := parseCashFromTitle r.title
  let cashAlternative := r.cashAlternative.orElse (fun _ => titleCash.cashAlternative)
  let additionalCash := r.additionalCash.orElse (fun _ => titleCash.additionalCash)
  let metrics := calculateRaffleMetrics
    { prizeValue := r.prizeValue
      cashAlternative := cashAlternative
      totalTickets := r.totalTickets
      ticketPrice := r.ticketPrice
      ticketsSold := r.ticketsSold
      endDate := r.endDate } now
  { site_id := siteId
    external_id := r.externalId
    title := r.title
    prize_type := prizeType
    car_make := truthyStr r.carMake
    car_model := truthyStr r.carModel
    car_year := truthyQ r.carYear
    car_variant := truthyStr r.carVariant
    car_category := carCategory
    prize_value := truthyQ r.prizeValue
    cash_alternative := cashAlternative
    additional_cash := additionalCash
    image_url := truthyStr r.imageUrl
    source_url := r.sourceUrl
    ticket_price := truthyQ r.ticketPrice
    total_tickets := truthyQ r.totalTickets
    tickets_sold := truthyQ r.ticketsSold
    tickets_remaining := metrics.tickets_remaining
    percent_sold := r.percentSold.orElse (fun _ => metrics.percent_sold)
    odds_ratio := metrics.odds_ratio
    value_per_pound := metrics.value_per_pound
    expected_value := metrics.expected_value
    end_date := r.endDate
    draw_type := truthyStr r.drawType
    status := metrics.status
    last_scraped_at := now }

/-- Point update of the keyed raffles table (the `update`/`insert` write). -/
def updateTbl (tbl : RaffleTable) (k : RaffleKey) (row : RaffleRow) : RaffleTable :=
  fun k' => if k' = k then some row else tbl k'

/-- The per-raffle loop of `persistScrapeResult` (base.ts lines 154-242):
skip free entries, compute the row, then upsert keyed by
(site_id, external_id), counting inserts and updates.  Database write
rejections are external failures and are modelled as not occurring. -/
def processRaffles (siteId : Nat) (now : ℚ) :
    List ScrapedRaffle → RaffleTable → Nat × Nat × RaffleTable
  | [], tbl => (0, 0, tbl)
  | r :: rs, tbl =>
      if skipRaffle r then processRaffles siteId now rs tbl
      else
        let row := buildRow siteId now r
        let key : RaffleKey := (siteId, r.externalId)
        match tbl key with
        | some _ =>
            let out := processRaffles siteId now rs (updateTbl tbl key row)
            (out.1, out.2.1 + 1, out.2.2)
        | none =>
            let out := processRaffles siteId now rs (updateTbl tbl key row)
            (out.1 + 1, out.2.1, out.2.2)

/-- The `persistScrapeResult` from base.ts: resolve the site id from the slug
(`none` models the thrown `Site not found` error), then upsert every
non-skipped raffle.  Returns `(itemsNew, itemsUpdated, updated store)`. -/
def persistScrapeResult (result : ScraperResult) (now : ℚ) (db : Db) :
    Option (Nat × Nat × Db) :=
  match db.sites.lookup result.siteSlug with
  | none => none
  | some siteId =>
      let out := processRaffles siteId now result.raffles db.raffles
      some (out.1, out.2.1, { db with raffles := out.2.2 })

-- ===========================================================
-- Dream Car Giveaways scraper (src/scrapers/dream-car-giveaways.ts)
-- ===========================================================

/-- A listing card as extracted by `scrapeListingPage`. -/
structure ListingCard where
  href : String
  title : String
  price : Option String
  percentSold : Option ℚ
  imageUrl : Option String
  deriving Repr, DecidableEq

/-- The object returned by the detail page `page.evaluate` block. -/
structure DetailData where
  pageTitle : String
  totalEntries : Option ℚ
  percentSold : Option ℚ
  price : Option String
  cashAlternative : Option ℚ      -- pounds, as parsed on the page
  additionalCash : Option ℚ       -- pounds
  drawType : Option String
  daysRemaining : Option ℚ
  hoursRemaining : Option ℚ
  mainImage : Option String
  deriving Repr, DecidableEq

/-- Outcome of one detail-page visit, the environment of the scraper:
`navFail` models `navigateWithRetry` exhausting its retries (it returns
`false`); `ok` models a successful navigation whose `page.evaluate` yields
the given data; `crash` models an exception thrown during the detail visit
(page crash etc.), which propagates to the `catch` in `scrape`. -/
inductive DetailOutcome where
  | navFail
  | ok (data : DetailData)
  | crash (msg : String)

def dcgBaseUrl : String := "https://dreamcargiveaways.co.uk"

/-- The `buildRaffleFromCard`: the fallback record synthesized from listing-card
data alone; `null` for free entries. -/
def buildRaffleFromCard (card : ListingCard) : Option ScrapedRaffle :=
  let ticketPrice : Option ℚ :=
    match card.price with
    | some p => if p = "" then none else parsePriceToPence p
    | none => none
  -- Skip free entries
  match ticketPrice with
  | some p =>
      if p ≤ 0 then none
      else some
        { externalId := extractSlugFromUrl card.href
          title := card.title
          sourceUrl := dcgBaseUrl ++ card.href
          imageUrl := card.imageUrl
          ticketPrice := some p
          percentSold := card.percentSold }
  | none => some
      { externalId := extractSlugFromUrl card.href
        title := card.title
        sourceUrl := dcgBaseUrl ++ card.href
        imageUrl := card.imageUrl
        ticketPrice := none
        percentSold := card.percentSold }

/-- The `scrapeDetailPage`: on navigation failure fall back to listing-card data
(no exception, no error entry); on success post-process the evaluated data;
a thrown exception is an `Except.error`.  `now` models `new Date()`. -/
def scrapeDetailPage (outcome : DetailOutcome) (now : ℚ) (url : String)
    (card : ListingCard) : Except String (Option ScrapedRaffle) :=
  match outcome with
  | .crash msg => .error msg
  | .navFail =>
      -- Could not load detail page: fall back to listing card data only
      .ok (buildRaffleFromCard card)
  | .ok data =>
      -- Calculate end date from countdown (setDate/setHours modelled as
      -- millisecond addition)
      let endDate : Option ℚ :=
        match data.daysRemaining, data.hoursRemaining with
        | some d, some h => some (now + d * (24 * 60 * 60 * 1000) + h * (60 * 60 * 1000))
        | _, _ => none
      -- data.pageTitle || card.title
      let title := if data.pageTitle = "" then card.title else data.pageTitle
      let externalId := extractSlugFromUrl url
      -- data.percentSold ?? card.percentSold ?? undefined
      let percentSold := data.percentSold.orElse (fun _ => card.percentSold)
      -- if (data.totalEntries && percentSold): truthiness, zero is falsy
      let ticketsSold : Option ℚ :=
        match data.totalEntries, percentSold with
        | some te, some ps =>
            if te ≠ 0 ∧ ps ≠ 0 then some ((jsRound (ps / 100 * te) : ℤ) : ℚ) else none
        | _, _ => none
      -- const priceStr = data.price ?? card.price
      let priceStr := data.price.orElse (fun _ => card.price)
      -- priceStr ? parsePriceToPence(priceStr) ?? undefined : undefined
      let ticketPrice : Option ℚ :=
        match priceStr with
        | some p => if p = "" then none else parsePriceToPence p
        | none => none
      -- Skip free entries
      match ticketPrice with
      | some p =>
          if p ≤ 0 then .ok none
          else .ok (some
            { externalId := externalId
              title := title
              sourceUrl := url
              imageUrl := data.mainImage.orElse (fun _ => card.imageUrl)
              ticketPrice := some p
              totalTickets := data.totalEntries
              ticketsSold := ticketsSold
              percentSold := percentSold
              cashAlternative := (jsOrQ data.cashAlternative none).map (· * 100)
              additionalCash := (jsOrQ data.additionalCash none).map (· * 100)
              endDate := endDate
              drawType := data.drawType })
      | none => .ok (some
          { externalId := externalId
            title := title
            sourceUrl := url
            imageUrl := data.mainImage.orElse (fun _ => card.imageUrl)
            ticketPrice := none
            totalTickets := data.totalEntries
            ticketsSold := ticketsSold
            percentSold := percentSold
            cashAlternative := (jsOrQ data.cashAlternative none).map (· * 100)
            additionalCash := (jsOrQ data.additionalCash none).map (· * 100)
            endDate := endDate
            drawType := data.drawType })

/-- The detail loop of `DreamCarGiveawaysScraper.scrape` (lines 39-61): for
each card visit the detail page; a returned record is pushed, a `null`
(free entry) is dropped silently, and a thrown exception appends
`Failed to scrape <id>: <msg>` to the error list and drops the item. -/
def dcgDetailLoop (env : String → DetailOutcome) (now : ℚ) :
    List ListingCard → List ScrapedRaffle × List String
  | [] => ([], [])
  | card :: rest =>
      let tail := dcgDetailLoop env now rest
      let detailUrl := dcgBaseUrl ++ card.href
      let externalId := extractSlugFromUrl card.href
      match scrapeDetailPage (env card.href) now detailUrl card with
      | .ok (some raffle) => (raffle :: tail.1, tail.2)
      | .ok none => (tail.1, tail.2)
      | .error msg =>
          (tail.1, ("Failed to scrape " ++ externalId ++ ": " ++ msg) :: tail.2)

/-- The `DreamCarGiveawaysScraper.scrape`, with the listing phase modelled by its
result (the deduplicated, free-entry-filtered card list) and each
detail-page visit by the environment `env`.  The wall-clock duration is not
modelled (0). -/
def dcgScrape (cards : List ListingCard) (env : String → DetailOutcome)
    (now : ℚ) : ScraperResult :=
  let out := dcgDetailLoop env now cards
  { siteName := "Dream Car Giveaways"
    siteSlug := "dream-car-giveaways"
    raffles := out.1
    errors := out.2
    duration := 0 }

-- ===========================================================
-- Scraper service job lock (scripts/scraper-service.ts lines 22-122)
-- ===========================================================

/-- Observable events of the service process (console log lines and
side effects), used to state what a skipped trigger does and does not do. -/
inductive ServiceEvent where
  | skipLogged (jobName : String)       -- "Skipping <job> — another job is still running"
  | jobStarted (jobName : String)       -- "Starting <job>..."
  | jobComplete (jobName : String)
  | jobFailed (jobName : String) (msg : String)
  | browserLaunched
  | browserKilled
  deriving Repr, DecidableEq

/-- Mutable module state of scraper-service.ts: the `isRunning` lock, the
cached browser handle (modelled by whether one is cached), the run-log rows
written by job bodies, and the event trace. -/
structure ServiceState where
  isRunning : Bool
  browser : Bool
  runLogs : List String
  events : List ServiceEvent
  deriving Repr, DecidableEq

/-- The `ensureBrowser`: reuse a connected browser, launch one otherwise. -/
def ensureBrowser (st : ServiceState) : ServiceState :=
  if st.browser then st
  else { st with browser := true, events := st.events ++ [.browserLaunched] }

/-- How the `Promise.race` of a job settles: the body resolved, or it (or the
timeout race) rejected with a message.  A timeout rejection is an `err`
whose message contains `timed out`, exactly as the source distinguishes it. -/
inductive JobOutcome where
  | ok
  | err (msg : String)

/-- The `runWithLock` from scraper-service.ts: skip when `isRunning` is set;
otherwise take the lock, run the body (modelled as a state transformer
returning how the race settled), kill the browser on a timeout message, and
release the lock in `finally`. -/
def runWithLock (jobName : String)
    (fn : ServiceState → ServiceState × JobOutcome) (st : ServiceState) :
    ServiceState :=
  if st.isRunning then
    { st with events := st.events ++ [.skipLogged jobName] }
  else
    let st1 := { st with isRunning := true, events := st.events ++ [.jobStarted jobName] }
    let run := fn st1
    let st3 : ServiceState :=
      match run.2 with
      | .ok => { run.1 with events := run.1.events ++ [ServiceEvent.jobComplete jobName] }
      | .err msg =>
          let st2 : ServiceState :=
            { run.1 with events := run.1.events ++ [ServiceEvent.jobFailed jobName msg] }
          -- If timed out, kill the browser to clean up hung pages
          if strIncludes msg "timed out" then
            { st2 with browser := false, events := st2.events ++ [ServiceEvent.browserKilled] }
          else st2
    { st3 with isRunning := false }

-- ===========================================================
-- Helper definitions for the verification
-- ===========================================================

/-- Does the (lower-cased) title contain any of the given patterns?  This is
exactly the test `classifyPrizeType` applies to each rule set. -/
def titleHas (pats : List String) (title : String) : Bool :=
  hasAny pats (lowerStr title)

/-- The row the persistence loop will leave at key `k` after processing the
raffle list: the row built from the last non-skipped raffle with that key,
if any. -/
def lastRowFor (siteId : Nat) (now : ℚ) (k : RaffleKey) :
    List ScrapedRaffle → Option RaffleRow
  | [] => none
  | r :: rs =>
      match lastRowFor siteId now k rs with
      | some row => some row
      | none =>
          if skipRaffle r = false ∧ (siteId, r.externalId) = k then
            some (buildRow siteId now r)
          else none

-- ===========================================================
-- Concrete inputs used by witnesses and counterexamples
-- ===========================================================

/-- A store knowing one site and holding no raffles yet. -/
def db0 : Db := { sites := [("dream-car-giveaways", 1)], raffles := fun _ => none }

/-- A scraped raffle with no ticket price at all (a listing card exposing no
price: reachable through the fallback path of every scraper). -/
def noPriceRaffle : ScrapedRaffle :=
  { externalId := "mystery-prize"
    title := "Mystery Prize Bundle"
    sourceUrl := "https://dreamcargiveaways.co.uk/competitions/mystery-prize" }

def noPriceResult : ScraperResult :=
  { siteName := "Dream Car Giveaways", siteSlug := "dream-car-giveaways"
    raffles := [noPriceRaffle], errors := [], duration := 0 }

/-- An ordinarily priced raffle, for positive witnesses. -/
def vanRaffle : ScrapedRaffle :=
  { externalId := "win-a-van"
    title := "Win a Van"
    sourceUrl := "https://dreamcargiveaways.co.uk/competitions/win-a-van"
    ticketPrice := some 150 }

def vanResult : ScraperResult :=
  { siteName := "Dream Car Giveaways", siteSlug := "dream-car-giveaways"
    raffles := [vanRaffle], errors := [], duration := 0 }

def vanRow : RaffleRow := buildRow 1 0 vanRaffle

def vanPersisted : Option (Nat × Nat × Db) := persistScrapeResult vanResult 0 db0

def vanDb1 : Db :=
  match vanPersisted with
  | some (_, _, d) => d
  | none => db0

def vanNew1 : Nat :=
  match vanPersisted with
  | some (n, _, _) => n
  | none => 0

def vanUpd1 : Nat :=
  match vanPersisted with
  | some (_, u, _) => u
  | none => 0

/-- A raffle whose source reports 100% sold but exposes neither tickets-sold
nor total-tickets (as the Dream Car Giveaways listing page does). -/
def reported100Raffle : ScrapedRaffle :=
  { externalId := "pct-100"
    title := "Win Something Special"
    sourceUrl := "https://dreamcargiveaways.co.uk/competitions/pct-100"
    ticketPrice := some 100
    percentSold := some 100 }

def reported100Result : ScraperResult :=
  { siteName := "Dream Car Giveaways", siteSlug := "dream-car-giveaways"
    raffles := [reported100Raffle], errors := [], duration := 0 }

/-- A raffle whose source reports a percent-sold figure above 100. -/
def reported150Raffle : ScrapedRaffle :=
  { externalId := "pct-150"
    title := "Win Something Special"
    sourceUrl := "https://dreamcargiveaways.co.uk/competitions/pct-150"
    ticketPrice := some 100
    percentSold := some 150 }

def reported150Result : ScraperResult :=
  { siteName := "Dream Car Giveaways", siteSlug := "dream-car-giveaways"
    raffles := [reported150Raffle], errors := [], duration := 0 }

/-- Metrics input: 100 of 100 tickets sold (computed percent sold 100). -/
def soldOutInput : MetricsInput :=
  { prizeValue := none, cashAlternative := none, totalTickets := some 100
    ticketPrice := some 100, ticketsSold := some 100, endDate := none }

/-- Metrics input: 40 of 100 tickets sold, end date 30 hours in the future
(relative to `now = 0`). -/
def endingSoonInput : MetricsInput :=
  { prizeValue := none, cashAlternative := none, totalTickets := some 100
    ticketPrice := some 100, ticketsSold := some 40
    endDate := some (30 * (1000 * 60 * 60)) }

/-- A raffle with tickets sold and total tickets known and no source-reported
percent sold. -/
def divisionRaffle : ScrapedRaffle :=
  { externalId := "division"
    title := "Win Something Special"
    sourceUrl := "https://dreamcargiveaways.co.uk/competitions/division"
    ticketPrice := some 100
    totalTickets := some 200
    ticketsSold := some 50 }

/-- The listing card of the fallback-correctness example. -/
def vanCard : ListingCard :=
  { href := "/competitions/win-a-van"
    title := "Win a Van"
    price := some "£1.50"
    percentSold := none
    imageUrl := none }

/-- Environment in which every detail-page navigation fails after retries. -/
def navFailEnv : String → DetailOutcome := fun _ => DetailOutcome.navFail

/-- The fallback record `buildRaffleFromCard` produces for `vanCard`. -/
def vanFallback : ScrapedRaffle :=
  { externalId := "win-a-van"
    title := "Win a Van"
    sourceUrl := "https://dreamcargiveaways.co.uk/competitions/win-a-van"
    imageUrl := none
    ticketPrice := some 150
    percentSold := none }

/-- A service state with a job in flight. -/
def busyState : ServiceState :=
  { isRunning := true, browser := true, runLogs := ["previous run"], events := [] }

/-- An idle service state. -/
def idleState : ServiceState :=
  { isRunning := false, browser := true, runLogs := [], events := [] }

/-- A job body whose race settles with a timeout rejection. -/
def timeoutJob : ServiceState → ServiceState × JobOutcome :=
  fun st => (ensureBrowser st, JobOutcome.err "Full Scrape timed out after 45m")

/-- A job body that resolves normally. -/
def okJob : ServiceState → ServiceState × JobOutcome :=
  fun st => (ensureBrowser st, JobOutcome.ok)

-- ===========================================================
-- Theorems
-- ===========================================================

/-- C3: For the title `"Win this 2024 BMW M2 & £2,000 or £52,000 Tax
Free"` with ticket price 500 pence and total tickets 50,000:
`classifyPrizeType` returns `car`, `classifyCarCategory` returns
`performance`, `parseCashFromTitle` returns additional cash 200,000 and cash
alternative 5,200,000 (pence), and the derived metrics are odds ratio
50,000, value-per-pound 10,400 and expected value 0.208 (whatever the
current time). -/
theorem c3_end_to_end_example :
    classifyPrizeType "Win this 2024 BMW M2 & £2,000 or £52,000 Tax Free" = PrizeType.car ∧
    classifyCarCategory "Win this 2024 BMW M2 & £2,000 or £52,000 Tax Free" none none =
      CarCategory.performance ∧
    parseCashFromTitle "Win this 2024 BMW M2 & £2,000 or £52,000 Tax Free" =
      { additionalCash := some 200000, cashAlternative := some 5200000 } ∧
    ∀ now : ℚ,
      (calculateRaffleMetrics
        { prizeValue := none, cashAlternative := some 5200000, totalTickets := some 50000
          ticketPrice := some 500, ticketsSold := none, endDate := none } now).odds_ratio =
          some 50000 ∧
      (calculateRaffleMetrics
        { prizeValue := none, cashAlternative := some 5200000, totalTickets := some 50000
          ticketPrice := some 500, ticketsSold := none, endDate := none } now).value_per_pound =
          some 10400 ∧
      (calculateRaffleMetrics
        { prizeValue := none, cashAlternative := some 5200000, totalTickets := some 50000
          ticketPrice := some 500, ticketsSold := none, endDate := none } now).expected_value =
          some (0.208 : ℚ) :=
  ⟨by decide, by decide, by with_unfolding_all rfl, fun _ =>
    ⟨by norm_num [calculateRaffleMetrics, calculateOddsRatio],
     by norm_num [calculateRaffleMetrics, calculateValuePerPound, jsOrQ],
     by norm_num [calculateRaffleMetrics, calculateExpectedValue, jsOrQ]⟩⟩

/-- C7: Metrics derivation is null-propagating (and, being total Lean
functions, never throws): whenever total tickets is unknown or ≤ 0,
`calculateOddsRatio` is null, `calculateExpectedValue` is null, and the
percent-sold-by-division field of `calculateRaffleMetrics` is null. -/
theorem c7_metrics_null_propagation (pv ca tp ts ed : Option ℚ) (tt : Option ℚ) (now : ℚ)
    (h : tt = none ∨ ∃ t, tt = some t ∧ t ≤ 0) :
    calculateOddsRatio tt = none ∧
    calculateExpectedValue pv ca tt tp = none ∧
    (calculateRaffleMetrics
      { prizeValue := pv, cashAlternative := ca, totalTickets := tt
        ticketPrice := tp, ticketsSold := ts, endDate := ed } now).percent_sold = none := by
  rcases h with h | ⟨t, rfl, ht⟩
  · subst h
    refine ⟨rfl, ?_, ?_⟩
    · cases hv : jsOrQ pv ca <;> cases tp <;> simp [calculateExpectedValue, hv]
    · cases ts <;> simp [calculateRaffleMetrics]
  · refine ⟨?_, ?_, ?_⟩
    · simp [calculateOddsRatio, ht]
    · cases hv : jsOrQ pv ca with
      | none => simp [calculateExpectedValue, hv]
      | some v =>
          cases tp with
          | none => simp [calculateExpectedValue, hv]
          | some p => simp [calculateExpectedValue, hv, ht]
    · cases ts with
      | none => simp [calculateRaffleMetrics]
      | some s => simp [calculateRaffleMetrics, not_lt.mpr ht]

/-- Witness for C7 at a concrete input (total tickets present but zero). -/
theorem c7_metrics_null_propagation_witness :
    calculateOddsRatio (some 0) = none ∧
    calculateExpectedValue (some 1000) none (some 0) (some 50) = none ∧
    (calculateRaffleMetrics
      { prizeValue := some 1000, cashAlternative := none, totalTickets := some 0
        ticketPrice := some 50, ticketsSold := some 0, endDate := none } 0).percent_sold = none :=
  c7_metrics_null_propagation (some 1000) none (some 50) (some 0) none (some 0) 0
    (Or.inr ⟨0, rfl, le_refl 0⟩)

/-- C2: `classifyPrizeType` evaluates its rules in a fixed order: any
instant-win pattern yields `other` (never `cash`); otherwise, unless a
not-a-real-vehicle phrase occurs, car keywords are tested before motorcycle
keywords; then house, then watch, then tech, then holiday, and generic cash
keywords last, with `other` when nothing matches.  In particular a title
containing a car keyword and a generic cash keyword, and no deny-list or
instant-win pattern, classifies as `car`, not `cash`. -/
theorem c2_classification_precedence (title : String) :
    (titleHas INSTANT_WIN_PATTERNS title = true →
      classifyPrizeType title = PrizeType.other) ∧
    (titleHas INSTANT_WIN_PATTERNS title = false →
     titleHas NOT_REAL_VEHICLE_PATTERNS title = false →
     titleHas CAR_KEYWORDS title = true →
      classifyPrizeType title = PrizeType.car) ∧
    (titleHas INSTANT_WIN_PATTERNS title = false →
     titleHas NOT_REAL_VEHICLE_PATTERNS title = false →
     titleHas CAR_KEYWORDS title = false →
     titleHas MOTORCYCLE_KEYWORDS title = true →
      classifyPrizeType title = PrizeType.motorcycle) ∧
    (titleHas INSTANT_WIN_PATTERNS title = false →
     (titleHas NOT_REAL_VEHICLE_PATTERNS title = true ∨
      (titleHas CAR_KEYWORDS title = false ∧ titleHas MOTORCYCLE_KEYWORDS title = false)) →
     titleHas HOUSE_KEYWORDS title = true →
      classifyPrizeType title = PrizeType.house) ∧
    (titleHas INSTANT_WIN_PATTERNS title = false →
     (titleHas NOT_REAL_VEHICLE_PATTERNS title = true ∨
      (titleHas CAR_KEYWORDS title = false ∧ titleHas MOTORCYCLE_KEYWORDS title = false)) →
     titleHas HOUSE_KEYWORDS title = false →
     titleHas WATCH_KEYWORDS title = true →
      classifyPrizeType title = PrizeType.watch) ∧
    (titleHas INSTANT_WIN_PATTERNS title = false →
     (titleHas NOT_REAL_VEHICLE_PATTERNS title = true ∨
      (titleHas CAR_KEYWORDS title = false ∧ titleHas MOTORCYCLE_KEYWORDS title = false)) →
     titleHas HOUSE_KEYWORDS title = false →
     titleHas WATCH_KEYWORDS title = false →
     titleHas TECH_KEYWORDS title = true →
      classifyPrizeType title = PrizeType.tech) ∧
    (titleHas INSTANT_WIN_PATTERNS title = false →
     (titleHas NOT_REAL_VEHICLE_PATTERNS title = true ∨
      (titleHas CAR_KEYWORDS title = false ∧ titleHas MOTORCYCLE_KEYWORDS title = false)) →
     titleHas HOUSE_KEYWORDS title = false →
     titleHas WATCH_KEYWORDS title = false →
     titleHas TECH_KEYWORDS title = false →
     titleHas HOLIDAY_KEYWORDS title = true →
      classifyPrizeType title = PrizeType.holiday) ∧
    (titleHas INSTANT_WIN_PATTERNS title = false →
     (titleHas NOT_REAL_VEHICLE_PATTERNS title = true ∨
      (titleHas CAR_KEYWORDS title = false ∧ titleHas MOTORCYCLE_KEYWORDS title = false)) →
     titleHas HOUSE_KEYWORDS title = false →
     titleHas WATCH_KEYWORDS title = false →
     titleHas TECH_KEYWORDS title = false →
     titleHas HOLIDAY_KEYWORDS title = false →
     titleHas CASH_KEYWORDS title = true →
      classifyPrizeType title = PrizeType.cash) ∧
    (titleHas INSTANT_WIN_PATTERNS title = false →
     (titleHas NOT_REAL_VEHICLE_PATTERNS title = true ∨
      (titleHas CAR_KEYWORDS title = false ∧ titleHas MOTORCYCLE_KEYWORDS title = false)) →
     titleHas HOUSE_KEYWORDS title = false →
     titleHas WATCH_KEYWORDS title = false →
     titleHas TECH_KEYWORDS title = false →
     titleHas HOLIDAY_KEYWORDS title = false →
     titleHas CASH_KEYWORDS title = false →
      classifyPrizeType title = PrizeType.other) ∧
    (titleHas INSTANT_WIN_PATTERNS title = false →
     titleHas NOT_REAL_VEHICLE_PATTERNS title = false →
     titleHas CAR_KEYWORDS title = true →
     titleHas CASH_KEYWORDS title = true →
      classifyPrizeType title = PrizeType.car ∧ classifyPrizeType title ≠ PrizeType.cash) := by
  refine ⟨?_, ?_, ?_, ?_, ?_, ?_, ?_, ?_, ?_, ?_⟩
  · intro h1
    simp only [titleHas] at h1
    simp [classifyPrizeType, h1]
  · intro h1 h2 h3
    simp only [titleHas] at h1 h2 h3
    simp [classifyPrizeType, h1, h2, h3]
  · intro h1 h2 h3 h4
    simp only [titleHas] at h1 h2 h3 h4
    simp [classifyPrizeType, h1, h2, h3, h4]
  · intro h1 h2 h3
    simp only [titleHas] at h1 h2 h3
    rcases h2 with h2 | ⟨h2a, h2b⟩
    · simp [classifyPrizeType, h1, h2, h3]
    · simp [classifyPrizeType, h1, h2a, h2b, h3]
  · intro h1 h2 h3 h4
    simp only [titleHas] at h1 h2 h3 h4
    rcases h2 with h2 | ⟨h2a, h2b⟩
    · simp [classifyPrizeType, h1, h2, h3, h4]
    · simp [classifyPrizeType, h1, h2a, h2b, h3, h4]
  · intro h1 h2 h3 h4 h5
    simp only [titleHas] at h1 h2 h3 h4 h5
    rcases h2 with h2 | ⟨h2a, h2b⟩
    · simp [classifyPrizeType, h1, h2, h3, h4, h5]
    · simp [classifyPrizeType, h1, h2a, h2b, h3, h4, h5]
  · intro h1 h2 h3 h4 h5 h6
    simp only [titleHas] at h1 h2 h3 h4 h5 h6
    rcases h2 with h2 | ⟨h2a, h2b⟩
    · simp [classifyPrizeType, h1, h2, h3, h4, h5, h6]
    · simp [classifyPrizeType, h1, h2a, h2b, h3, h4, h5, h6]
  · intro h1 h2 h3 h4 h5 h6 h7
    simp only [titleHas] at h1 h2 h3 h4 h5 h6 h7
    rcases h2 with h2 | ⟨h2a, h2b⟩
    · simp [classifyPrizeType, h1, h2, h3, h4, h5, h6, h7]
    · simp [classifyPrizeType, h1, h2a, h2b, h3, h4, h5, h6, h7]
  · intro h1 h2 h3 h4 h5 h6 h7
    simp only [titleHas] at h1 h2 h3 h4 h5 h6 h7
    rcases h2 with h2 | ⟨h2a, h2b⟩
    · simp [classifyPrizeType, h1, h2, h3, h4, h5, h6, h7]
    · simp [classifyPrizeType, h1, h2a, h2b, h3, h4, h5, h6, h7]
  · intro h1 h2 h3 h4
    simp only [titleHas] at h1 h2 h3 h4
    constructor
    · simp [classifyPrizeType, h1, h2, h3]
    · simp [classifyPrizeType, h1, h2, h3]

/-- Witness for C2: an instant-win title classifies as `other`; a title with
both a car keyword (`bmw`) and a generic cash keyword (`win £`), no
deny-list and no instant-win pattern, classifies as `car`, not `cash`. -/
theorem c2_classification_precedence_witness :
    classifyPrizeType "Wheel of Fortune Instant Win" = PrizeType.other ∧
    classifyPrizeType "Win £50,000 Tax Free Cash or this BMW M3" = PrizeType.car ∧
    classifyPrizeType "Win £50,000 Tax Free Cash or this BMW M3" ≠ PrizeType.cash :=
  ⟨(c2_classification_precedence "Wheel of Fortune Instant Win").1 (by decide),
   ((c2_classification_precedence "Win £50,000 Tax Free Cash or this BMW M3").2.2.2.2.2.2.2.2.2
      (by decide) (by decide) (by decide) (by decide)).1,
   ((c2_classification_precedence "Win £50,000 Tax Free Cash or this BMW M3").2.2.2.2.2.2.2.2.2
      (by decide) (by decide) (by decide) (by decide)).2⟩

/-- C9: A trigger that arrives while `isRunning` is set is skipped:
`runWithLock` returns the state unchanged except for one logged skip entry —
whatever the job body is, so the body is never run, no browser is launched,
no run-log row is written, and nothing is queued for later execution. -/
theorem c9_lock_skips_overlapping_run (jobName : String)
    (fn : ServiceState → ServiceState × JobOutcome) (st : ServiceState)
    (h : st.isRunning = true) :
    runWithLock jobName fn st =
      { st with events := st.events ++ [ServiceEvent.skipLogged jobName] } := by
  simp [runWithLock, h]

/-- Witness for C9: while a full scrape is in flight, a second full-scrape
trigger leaves the busy state untouched apart from the skip log — in
particular the run-log list and browser handle are unchanged and the would-be
job body (which would launch a browser) never runs. -/
theorem c9_lock_skips_overlapping_run_witness :
    runWithLock "Full Scrape" okJob busyState =
      { busyState with events := busyState.events ++ [ServiceEvent.skipLogged "Full Scrape"] } :=
  c9_lock_skips_overlapping_run "Full Scrape" okJob busyState rfl

/-- C10: The job lock is always released: every invocation of
`runWithLock` that acquires the lock (finds `isRunning = false`) returns a
state with `isRunning = false` again — whether the body resolved, rejected,
or lost the timeout race — so no run leaves the lock held forever. -/
theorem c10_lock_always_released (jobName : String)
    (fn : ServiceState → ServiceState × JobOutcome) (st : ServiceState)
    (h : st.isRunning = false) :
    (runWithLock jobName fn st).isRunning = false := by
  simp [runWithLock, h]

/-- Witness for C10: a full scrape whose race settles with a timeout
rejection still ends with the lock released. -/
theorem c10_lock_always_released_witness :
    (runWithLock "Full Scrape" timeoutJob idleState).isRunning = false :=
  c10_lock_always_released "Full Scrape" timeoutJob idleState rfl

-- ===========================================================
-- Persistence-loop lemmas (shared by several claims)
-- ===========================================================

/-- After the persistence loop, the table at key `k` holds the row of the
last non-skipped raffle with that key, and is untouched otherwise. -/
theorem processRaffles_table_lookup (siteId : Nat) (now : ℚ) (rs : List ScrapedRaffle)
    (tbl : RaffleTable) (k : RaffleKey) :
    (processRaffles siteId now rs tbl).2.2 k =
      Option.or (lastRowFor siteId now k rs) (tbl k) := by
  induction rs generalizing tbl with
  | nil => simp [processRaffles, lastRowFor, Option.or]
  | cons r rs ih =>
      by_cases hskip : skipRaffle r = true
      · rw [show processRaffles siteId now (r :: rs) tbl =
            processRaffles siteId now rs tbl by simp [processRaffles, hskip]]
        rw [ih]
        cases hl : lastRowFor siteId now k rs <;>
          simp [lastRowFor, hl, hskip, Option.or]
      · have hsf : skipRaffle r = false := by
          cases hsk : skipRaffle r
          · rfl
          · exact absurd hsk hskip
        have hstep : (processRaffles siteId now (r :: rs) tbl).2.2 =
            (processRaffles siteId now rs
              (updateTbl tbl (siteId, r.externalId) (buildRow siteId now r))).2.2 := by
          simp only [processRaffles, hsf]
          cases tbl (siteId, r.externalId) <;> simp
        rw [hstep, ih]
        cases hl : lastRowFor siteId now k rs with
        | some row => simp [lastRowFor, hl, Option.or]
        | none =>
            by_cases hk : (siteId, r.externalId) = k
            · subst hk
              simp [lastRowFor, hl, hsf, updateTbl, Option.or]
            · have hk2 : k ≠ (siteId, r.externalId) := fun hx => hk hx.symm
              simp [lastRowFor, hl, hsf, hk, updateTbl, Option.or, hk2]

/-- Every non-skipped raffle of the batch has a row in the table afterwards. -/
theorem lastRowFor_of_mem (siteId : Nat) (now : ℚ) (rs : List ScrapedRaffle)
    (r : ScrapedRaffle) (hmem : r ∈ rs) (hskip : skipRaffle r = false) :
    ∃ row, lastRowFor siteId now (siteId, r.externalId) rs = some row := by
  induction rs with
  | nil => cases hmem
  | cons a rs ih =>
      rcases List.mem_cons.mp hmem with rfl | hmem
      · cases hl : lastRowFor siteId now (siteId, r.externalId) rs with
        | some row => exact ⟨row, by simp [lastRowFor, hl]⟩
        | none => exact ⟨buildRow siteId now r, by simp [lastRowFor, hl, hskip]⟩
      · obtain ⟨row, hrow⟩ := ih hmem
        exact ⟨row, by simp [lastRowFor, hrow]⟩

/-- Any row the loop leaves behind was built from a non-skipped raffle of the
batch by `buildRow`. -/
theorem lastRowFor_buildRow (siteId : Nat) (now : ℚ) (k : RaffleKey)
    (rs : List ScrapedRaffle) (row : RaffleRow)
    (h : lastRowFor siteId now k rs = some row) :
    ∃ r, r ∈ rs ∧ skipRaffle r = false ∧ row = buildRow siteId now r := by
  induction rs with
  | nil => simp [lastRowFor] at h
  | cons a rs ih =>
      simp only [lastRowFor] at h
      cases hl : lastRowFor siteId now k rs with
      | some row2 =>
          rw [hl] at h
          simp only [Option.some.injEq] at h
          subst h
          obtain ⟨r, hr1, hr2, hr3⟩ := ih hl
          exact ⟨r, List.mem_cons_of_mem _ hr1, hr2, hr3⟩
      | none =>
          rw [hl] at h
          simp only [] at h
          split at h
          · rename_i hcond
            exact ⟨a, List.mem_cons_self a rs, hcond.1,
              (Option.some.inj h).symm⟩
          · cases h

/-- A non-skipped raffle yields a row whose ticket price is absent or
strictly positive (the skip test removes present non-positive prices, and
`|| null` collapses a present `0` — already unreachable — to null). -/
theorem buildRow_ticket_price_of_not_skipped (siteId : Nat) (now : ℚ)
    (r : ScrapedRaffle) (h : skipRaffle r = false) :
    (buildRow siteId now r).ticket_price = none ∨
      ∃ q, (buildRow siteId now r).ticket_price = some q ∧ 0 < q := by
  have hb : (buildRow siteId now r).ticket_price = truthyQ r.ticketPrice := rfl
  rw [hb]
  cases hp : r.ticketPrice with
  | none => exact Or.inl rfl
  | some p =>
      have hple : ¬p ≤ 0 := by
        simp [skipRaffle, hp] at h
        exact not_le.mpr h
      have hpos : 0 < p := not_le.mp hple
      refine Or.inr ⟨p, ?_, hpos⟩
      simp [truthyQ, jsOrQ, ne_of_gt hpos]

/-- C1 amended: Every raffle whose ticket price is present and
non-positive is skipped before any write, so every row the pipeline writes
has a ticket price that is either strictly positive or absent (null): rows
without any price survive persistence with a null ticket price. -/
theorem c1_persisted_ticket_price (result : ScraperResult) (now : ℚ) (db : Db)
    (out : Nat × Nat × Db) (h : persistScrapeResult result now db = some out)
    (k : RaffleKey) (row : RaffleRow) (hrow : out.2.2.raffles k = some row) :
    db.raffles k = some row ∨ row.ticket_price = none ∨
      ∃ q, row.ticket_price = some q ∧ 0 < q := by
  rw [persistScrapeResult] at h
  cases hs : db.sites.lookup result.siteSlug with
  | none => rw [hs] at h; cases h
  | some siteId =>
      rw [hs] at h
      simp only [Option.some.injEq] at h
      subst h
      dsimp only at hrow
      rw [processRaffles_table_lookup] at hrow
      cases hl : lastRowFor siteId now k result.raffles with
      | none =>
          rw [hl] at hrow
          exact Or.inl hrow
      | some row0 =>
          rw [hl] at hrow
          simp only [Option.or, Option.some.injEq] at hrow
          subst hrow
          obtain ⟨r, _, hskip, hbuild⟩ :=
            lastRowFor_buildRow siteId now k result.raffles row0 hl
          subst hbuild
          exact Or.inr (buildRow_ticket_price_of_not_skipped siteId now r hskip)

/-- Witness for C1 (amended): persisting a normally priced raffle into an
empty store writes a row whose ticket price is positive (or absent). -/
theorem c1_persisted_ticket_price_witness :
    db0.raffles (1, "win-a-van") = some vanRow ∨ vanRow.ticket_price = none ∨
      ∃ q, vanRow.ticket_price = some q ∧ 0 < q := by
  have h1 : persistScrapeResult vanResult 0 db0 = some (vanNew1, vanUpd1, vanDb1) := by
    with_unfolding_all rfl
  have h2 : (vanNew1, vanUpd1, vanDb1).2.2.raffles (1, "win-a-van") = some vanRow := by
    with_unfolding_all rfl
  exact c1_persisted_ticket_price vanResult 0 db0 (vanNew1, vanUpd1, vanDb1) h1
    (1, "win-a-van") vanRow h2

/-- C1 counterexample: The claim "every record persisted by the
pipeline has a strictly positive ticket price" is false: a raffle whose
listing exposes no price at all is not skipped and is persisted with a null
ticket price. -/
theorem c1_counterexample_null_price_persisted :
    (persistScrapeResult noPriceResult 0 db0).map
        (fun out => (out.2.2.raffles (1, "mystery-prize")).map
          (fun row => row.ticket_price)) = some (some none) := by
  with_unfolding_all rfl

/-- When every non-skipped raffle already has a row under its key, the
persistence loop inserts nothing and updates every non-skipped raffle. -/
theorem processRaffles_counts_when_present (siteId : Nat) (now : ℚ)
    (rs : List ScrapedRaffle) (tbl : RaffleTable)
    (H : ∀ r ∈ rs, skipRaffle r = false →
      ∃ row, tbl (siteId, r.externalId) = some row) :
    (processRaffles siteId now rs tbl).1 = 0 ∧
    (processRaffles siteId now rs tbl).2.1 =
      (rs.filter (fun r => !skipRaffle r)).length := by
  induction rs generalizing tbl with
  | nil => simp [processRaffles]
  | cons r rs ih =>
      by_cases hskip : skipRaffle r = true
      · have hstep : processRaffles siteId now (r :: rs) tbl =
            processRaffles siteId now rs tbl := by
          simp [processRaffles, hskip]
        rw [hstep]
        have hfil : (r :: rs).filter (fun r => !skipRaffle r) =
            rs.filter (fun r => !skipRaffle r) := by
          simp [List.filter, hskip]
        rw [hfil]
        exact ih tbl (fun r' hm hsk => H r' (List.mem_cons_of_mem _ hm) hsk)
      · have hsf : skipRaffle r = false := by
          cases hsk : skipRaffle r
          · rfl
          · exact absurd hsk hskip
        obtain ⟨row0, hrow0⟩ := H r (List.mem_cons_self r rs) hsf
        have H2 : ∀ r' ∈ rs, skipRaffle r' = false →
            ∃ row, updateTbl tbl (siteId, r.externalId) (buildRow siteId now r)
              (siteId, r'.externalId) = some row := by
          intro r' hm hsk
          by_cases hk : (siteId, r'.externalId) = (siteId, r.externalId)
          · exact ⟨buildRow siteId now r, by simp [updateTbl, hk]⟩
          · obtain ⟨row, hrow⟩ := H r' (List.mem_cons_of_mem _ hm) hsk
            exact ⟨row, by simp [updateTbl, hk]; exact hrow⟩
        obtain ⟨ih1, ih2⟩ := ih _ H2
        have hstep : processRaffles siteId now (r :: rs) tbl =
            ((processRaffles siteId now rs
                (updateTbl tbl (siteId, r.externalId) (buildRow siteId now r))).1,
             (processRaffles siteId now rs
                (updateTbl tbl (siteId, r.externalId) (buildRow siteId now r))).2.1 + 1,
             (processRaffles siteId now rs
                (updateTbl tbl (siteId, r.externalId) (buildRow siteId now r))).2.2) := by
          simp [processRaffles, hsf, hrow0]
        rw [hstep]
        have hfil : (r :: rs).filter (fun r => !skipRaffle r) =
            r :: rs.filter (fun r => !skipRaffle r) := by
          simp [List.filter, hsf]
        rw [hfil]
        exact ⟨ih1, by simp [ih2]⟩

/-- Running the persistence loop a second time over its own output table
leaves the table unchanged. -/
theorem processRaffles_table_fixpoint (siteId : Nat) (now : ℚ)
    (rs : List ScrapedRaffle) (tbl : RaffleTable) :
    (processRaffles siteId now rs
      ((processRaffles siteId now rs tbl).2.2)).2.2 =
      (processRaffles siteId now rs tbl).2.2 := by
  funext k
  rw [processRaffles_table_lookup, processRaffles_table_lookup]
  cases hl : lastRowFor siteId now k rs <;> simp [Option.or]

/-- C4: `persistFull` is idempotent: a second run of
`persistScrapeResult` with byte-identical input, against the store the first
run produced, inserts nothing, updates every non-skipped record in place,
and leaves the store byte-identical (so every classification and metrics
value is computed the same both times). -/
theorem c4_persist_idempotent (result : ScraperResult) (now : ℚ) (db : Db)
    (out : Nat × Nat × Db) (h : persistScrapeResult result now db = some out) :
    persistScrapeResult result now out.2.2 = some
      (0, (result.raffles.filter (fun r => !skipRaffle r)).length, out.2.2) := by
  rw [persistScrapeResult] at h
  cases hs : db.sites.lookup result.siteSlug with
  | none => rw [hs] at h; cases h
  | some siteId =>
      rw [hs] at h
      simp only [Option.some.injEq] at h
      subst h
      rw [persistScrapeResult]
      dsimp only
      rw [hs]
      have H2 : ∀ r ∈ result.raffles, skipRaffle r = false →
          ∃ row, (processRaffles siteId now result.raffles db.raffles).2.2
            (siteId, r.externalId) = some row := by
        intro r hm hsk
        obtain ⟨row, hrow⟩ := lastRowFor_of_mem siteId now result.raffles r hm hsk
        refine ⟨row, ?_⟩
        rw [processRaffles_table_lookup, hrow]
        rfl
      obtain ⟨h0, hcnt⟩ := processRaffles_counts_when_present siteId now result.raffles
        ((processRaffles siteId now result.raffles db.raffles).2.2) H2
      have hfix := processRaffles_table_fixpoint siteId now result.raffles db.raffles
      simp only [Option.some.injEq]
      refine Prod.ext ?_ (Prod.ext ?_ ?_)
      · exact h0
      · exact hcnt
      · dsimp only
        rw [hfix]

/-- Witness for C4: persisting the one-raffle van result twice — the second
run against the store produced by the first inserts nothing, updates the one
record, and leaves the store unchanged. -/
theorem c4_persist_idempotent_witness :
    persistScrapeResult vanResult 0 vanDb1 = some (0, 1, vanDb1) := by
  have h1 : persistScrapeResult vanResult 0 db0 = some (vanNew1, vanUpd1, vanDb1) := by
    with_unfolding_all rfl
  have h2 := c4_persist_idempotent vanResult 0 db0 (vanNew1, vanUpd1, vanDb1) h1
  have h3 : ((vanResult.raffles.filter (fun r => !skipRaffle r)).length) = 1 := by
    with_unfolding_all rfl
  rw [h3] at h2
  exact h2

/-- The `toFixed(2)` rounding maps [0, 100] into [0, 100]. -/
theorem round2_bounds (q : ℚ) (h0 : 0 ≤ q) (h1 : q ≤ 100) :
    0 ≤ round2 q ∧ round2 q ≤ 100 := by
  have hfl : (0 : ℤ) ≤ ⌊q * 100 + 1/2⌋ := by
    apply Int.le_floor.mpr
    push_cast
    nlinarith
  have hfu : ⌊q * 100 + 1/2⌋ ≤ 10000 := by
    have hle : ((⌊q * 100 + 1/2⌋ : ℤ) : ℚ) ≤ q * 100 + 1/2 := Int.floor_le _
    have hlt : ((⌊q * 100 + 1/2⌋ : ℤ) : ℚ) < 10001 := by nlinarith
    exact_mod_cast Int.lt_add_one_iff.mp (by exact_mod_cast hlt)
  constructor
  · unfold round2 jsRound
    apply div_nonneg _ (by norm_num)
    exact_mod_cast hfl
  · unfold round2 jsRound
    rw [div_le_iff₀ (by norm_num : (0:ℚ) < 100)]
    calc ((⌊q * 100 + 1/2⌋ : ℤ) : ℚ) ≤ ((10000 : ℤ) : ℚ) := by exact_mod_cast hfu
    _ = 100 * 100 := by norm_num

/-- C8 amended: For every persisted record whose percent sold was
computed by the division (the source reported none), if the ticket counts
satisfy `0 ≤ ticketsSold ≤ totalTickets` then the persisted percent sold
lies in [0, 100].  (A source-reported percent sold is persisted unvalidated
and may lie outside [0, 100].) -/
theorem c8_division_percent_in_range (siteId : Nat) (now : ℚ) (r : ScrapedRaffle)
    (s t p : ℚ) (hps : r.percentSold = none) (hs : r.ticketsSold = some s)
    (ht : r.totalTickets = some t) (h0 : 0 ≤ s) (hst : s ≤ t)
    (hp : (buildRow siteId now r).percent_sold = some p) :
    0 ≤ p ∧ p ≤ 100 := by
  have hb : (buildRow siteId now r).percent_sold =
      Option.orElse r.percentSold
        (fun _ => (calculateRaffleMetrics
          { prizeValue := r.prizeValue
            cashAlternative := Option.orElse r.cashAlternative
              (fun _ => (parseCashFromTitle r.title).cashAlternative)
            totalTickets := r.totalTickets
            ticketPrice := r.ticketPrice
            ticketsSold := r.ticketsSold
            endDate := r.endDate } now).percent_sold) := rfl
  rw [hb, hps] at hp
  simp only [Option.orElse] at hp
  have hpc : (if t > 0 then some (round2 (s / t * 100)) else none) = some p := by
    rw [← hp]
    simp [calculateRaffleMetrics, ht, hs]
  by_cases htp : t > 0
  · rw [if_pos htp] at hpc
    have hpe : p = round2 (s / t * 100) := (Option.some.inj hpc).symm
    subst hpe
    apply round2_bounds
    · positivity
    · have hq : s / t ≤ 1 := (div_le_one htp).mpr hst
      nlinarith
  · rw [if_neg htp] at hpc
    cases hpc

/-- Witness for C8 (amended): 50 of 200 tickets sold persists percent sold
25, inside [0, 100]. -/
theorem c8_division_percent_in_range_witness :
    (0 : ℚ) ≤ 25 ∧ (25 : ℚ) ≤ 100 := by
  have hp : (buildRow 1 0 divisionRaffle).percent_sold = some 25 := by
    with_unfolding_all rfl
  exact c8_division_percent_in_range 1 0 divisionRaffle 50 200 25 rfl rfl rfl
    (by norm_num) (by norm_num) hp

/-- C8 counterexample: The claim that every persisted percent sold lies
in [0, 100] is false: a source-reported value is persisted unvalidated, so a
listing reporting 150% sold yields a persisted record with percent sold
150. -/
theorem c8_counterexample_reported_percent_out_of_range :
    (persistScrapeResult reported150Result 0 db0).map
        (fun out => (out.2.2.raffles (1, "pct-150")).map
          (fun row => row.percent_sold)) = some (some (some 150)) ∧
      ¬((150 : ℚ) ≤ 100) := by
  constructor
  · with_unfolding_all rfl
  · norm_num

/-- The derived status, characterized through the computed (division-based)
percent-sold field of the metrics result. -/
theorem metrics_status_characterization (d : MetricsInput) (now : ℚ) :
    (calculateRaffleMetrics d now).status =
      (match (calculateRaffleMetrics d now).percent_sold with
       | some p =>
           if p ≥ 100 then RaffleStatus.sold_out
           else
             match d.endDate with
             | some e =>
                 if (e - now) / (1000 * 60 * 60) ≤ 48 ∧ (e - now) / (1000 * 60 * 60) > 0 then
                   RaffleStatus.ending_soon
                 else RaffleStatus.active
             | none => RaffleStatus.active
       | none =>
           match d.endDate with
           | some e =>
               if (e - now) / (1000 * 60 * 60) ≤ 48 ∧ (e - now) / (1000 * 60 * 60) > 0 then
                 RaffleStatus.ending_soon
               else RaffleStatus.active
           | none => RaffleStatus.active) := rfl

/-- C6 amended: The derived status is computed from the
division-computed percent sold (not the source-reported value the record is
persisted with): `sold_out` exactly when the computed percent sold is ≥ 100;
otherwise `ending_soon` exactly when the end date lies within 48 hours in
the future; `drawn` and `cancelled` are never produced. -/
theorem c6_status_derivation (d : MetricsInput) (now : ℚ) :
    ((calculateRaffleMetrics d now).status = RaffleStatus.sold_out ↔
      (∃ p, (calculateRaffleMetrics d now).percent_sold = some p ∧ 100 ≤ p)) ∧
    ((calculateRaffleMetrics d now).status = RaffleStatus.ending_soon ↔
      ((∀ p, (calculateRaffleMetrics d now).percent_sold = some p → p < 100) ∧
       (∃ e, d.endDate = some e ∧ (e - now) / (1000 * 60 * 60) ≤ 48 ∧
         (e - now) / (1000 * 60 * 60) > 0))) ∧
    (calculateRaffleMetrics d now).status ≠ RaffleStatus.drawn ∧
    (calculateRaffleMetrics d now).status ≠ RaffleStatus.cancelled := by
  rw [metrics_status_characterization]
  cases hps : (calculateRaffleMetrics d now).percent_sold with
  | none =>
      cases hed : d.endDate with
      | none => simp
      | some e =>
          have hiff : ((e - now) / (1000 * 60 * 60) > 0) ↔ now < e := by
            rw [gt_iff_lt, lt_div_iff₀ (by norm_num : (0:ℚ) < 1000 * 60 * 60)]
            constructor <;> intro h <;> linarith
          by_cases hc : (e - now) / (1000 * 60 * 60) ≤ 48 ∧ now < e
          · simp [hiff, hc]
          · simp [hiff, hc]
  | some p =>
      by_cases h100 : p ≥ 100
      · simp only [if_pos h100]
        refine ⟨by simp [h100], by simp [not_lt.mpr h100], by simp, by simp⟩
      · simp only [if_neg h100]
        have hplt : p < 100 := not_le.mp h100
        cases hed : d.endDate with
        | none => simp [hplt, h100]
        | some e =>
            have hiff : ((e - now) / (1000 * 60 * 60) > 0) ↔ now < e := by
              rw [gt_iff_lt, lt_div_iff₀ (by norm_num : (0:ℚ) < 1000 * 60 * 60)]
              constructor <;> intro h <;> linarith
            by_cases hc : (e - now) / (1000 * 60 * 60) ≤ 48 ∧ now < e
            · simp [hiff, hc, hplt, h100]
            · simp [hiff, hc, hplt, h100]

/-- Witness for C6 (amended): computed percent sold 100 gives `sold_out`;
computed percent sold 40 with an end date 30 hours ahead gives
`ending_soon`. -/
theorem c6_status_derivation_witness :
    (calculateRaffleMetrics soldOutInput 0).status = RaffleStatus.sold_out ∧
    (calculateRaffleMetrics endingSoonInput 0).status = RaffleStatus.ending_soon := by
  constructor
  · exact (c6_status_derivation soldOutInput 0).1.mpr
      ⟨100, by with_unfolding_all rfl, le_refl 100⟩
  · refine (c6_status_derivation endingSoonInput 0).2.1.mpr ⟨?_, ?_⟩
    · intro p hp
      have h40 : (calculateRaffleMetrics endingSoonInput 0).percent_sold = some 40 := by
        with_unfolding_all rfl
      rw [h40] at hp
      have hp40 : p = 40 := (Option.some.inj hp).symm
      rw [hp40]
      norm_num
    · exact ⟨30 * (1000 * 60 * 60), rfl, by norm_num, by norm_num⟩

/-- C6 counterexample: "A record with percent sold = 100 is sold_out
regardless of end date" is false for persisted records: the status is
derived only from the division-computed percent, so a record persisted with
the source-reported percent sold 100 (tickets sold unknown) has status
`active`, not `sold_out`. -/
theorem c6_counterexample_reported_percent_ignored :
    (persistScrapeResult reported100Result 0 db0).map
        (fun out => (out.2.2.raffles (1, "pct-100")).map
          (fun row => (row.percent_sold, row.status))) =
      some (some (some 100, RaffleStatus.active)) ∧
    RaffleStatus.active ≠ RaffleStatus.sold_out := by
  constructor
  · with_unfolding_all rfl
  · simp

/-- A successfully navigated detail page never raises: the post-processing
always returns `ok` (a record or a silently dropped free entry). -/
theorem scrapeDetailPage_ok_no_error (data : DetailData) (now : ℚ) (url : String)
    (card : ListingCard) (msg : String) :
    scrapeDetailPage (DetailOutcome.ok data) now url card ≠ Except.error msg := by
  simp only [scrapeDetailPage]
  split
  · split <;> simp
  · simp

/-- The fallback record keeps the title of the listing card. -/
theorem buildRaffleFromCard_title (card : ListingCard) (r : ScrapedRaffle)
    (h : buildRaffleFromCard card = some r) : r.title = card.title := by
  simp only [buildRaffleFromCard] at h
  split at h
  · split at h
    · cases h
    · have hr := (Option.some.inj h).symm
      subst hr
      rfl
  · have hr := (Option.some.inj h).symm
    subst hr
    rfl

/-- A card whose detail navigation fails after retries still contributes its
fallback record to the scrape output. -/
theorem dcgLoop_mem_of_navFail (env : String → DetailOutcome) (now : ℚ)
    (cards : List ListingCard) (card : ListingCard) (r : ScrapedRaffle)
    (hmem : card ∈ cards) (hnav : env card.href = DetailOutcome.navFail)
    (hbuild : buildRaffleFromCard card = some r) :
    r ∈ (dcgDetailLoop env now cards).1 := by
  induction cards with
  | nil => cases hmem
  | cons a rest ih =>
      rcases List.mem_cons.mp hmem with rfl | hmem2
      · have hd : scrapeDetailPage (env card.href) now (dcgBaseUrl ++ card.href) card =
            Except.ok (some r) := by
          rw [hnav]
          simp [scrapeDetailPage, hbuild]
        simp only [dcgDetailLoop]
        rw [hd]
        exact List.mem_cons_self _ _
      · simp only [dcgDetailLoop]
        cases hd : scrapeDetailPage (env a.href) now (dcgBaseUrl ++ a.href) a with
        | ok v =>
            cases v with
            | some raffle => exact List.mem_cons_of_mem _ (ih hmem2)
            | none => exact ih hmem2
        | error msg => exact ih hmem2

/-- Every entry in the scrape error list stems from an exception thrown
during a detail visit (`crash`), never from a failed navigation. -/
theorem dcgLoop_errors_characterization (env : String → DetailOutcome) (now : ℚ)
    (cards : List ListingCard) :
    ∀ e ∈ (dcgDetailLoop env now cards).2,
      ∃ c m, c ∈ cards ∧ env c.href = DetailOutcome.crash m ∧
        e = "Failed to scrape " ++ extractSlugFromUrl c.href ++ ": " ++ m := by
  induction cards with
  | nil =>
      intro e he
      simp [dcgDetailLoop] at he
  | cons a rest ih =>
      intro e he
      simp only [dcgDetailLoop] at he
      cases hd : scrapeDetailPage (env a.href) now (dcgBaseUrl ++ a.href) a with
      | ok v =>
          rw [hd] at he
          cases v with
          | some raffle =>
              obtain ⟨c, m, hc, hm, he2⟩ := ih e he
              exact ⟨c, m, List.mem_cons_of_mem _ hc, hm, he2⟩
          | none =>
              obtain ⟨c, m, hc, hm, he2⟩ := ih e he
              exact ⟨c, m, List.mem_cons_of_mem _ hc, hm, he2⟩
      | error msg =>
          rw [hd] at he
          rcases List.mem_cons.mp he with rfl | he2
          · have hcrash : env a.href = DetailOutcome.crash msg := by
              cases ho : env a.href with
              | navFail => rw [ho] at hd; simp [scrapeDetailPage] at hd
              | ok data =>
                  rw [ho] at hd
                  exact absurd hd (scrapeDetailPage_ok_no_error data now _ a msg)
              | crash m =>
                  rw [ho] at hd
                  simp only [scrapeDetailPage, Except.error.injEq] at hd
                  rw [hd]
            exact ⟨a, msg, List.mem_cons_self _ _, hcrash, rfl⟩
          · obtain ⟨c, m, hc, hm, he3⟩ := ih e he2
            exact ⟨c, m, List.mem_cons_of_mem _ hc, hm, he3⟩

/-- C5 amended: For every listing card whose detail-page navigation
fails (timeout or navigation error exhausting the retries), `scrape` still
returns a record for that item synthesized from listing data alone (with the
title of the card), so detail-page navigation failures alone never make the
result empty; however no entry is added to the error list of the run for such an
item — error-list entries arise only from exceptions thrown during a detail
visit, and those items yield no record. -/
theorem c5_navfail_fallback_and_errors (cards : List ListingCard)
    (env : String → DetailOutcome) (now : ℚ) (card : ListingCard) (r : ScrapedRaffle)
    (hmem : card ∈ cards) (hnav : env card.href = DetailOutcome.navFail)
    (hbuild : buildRaffleFromCard card = some r) :
    r ∈ (dcgScrape cards env now).raffles ∧ r.title = card.title ∧
    ∀ e ∈ (dcgScrape cards env now).errors,
      ∃ c m, c ∈ cards ∧ env c.href = DetailOutcome.crash m ∧
        e = "Failed to scrape " ++ extractSlugFromUrl c.href ++ ": " ++ m := by
  refine ⟨?_, buildRaffleFromCard_title card r hbuild, ?_⟩
  · exact dcgLoop_mem_of_navFail env now cards card r hmem hnav hbuild
  · exact dcgLoop_errors_characterization env now cards

/-- Witness for C5 (amended): the "Win a Van" card at price £1.50 whose
detail navigation fails still yields its fallback record (title
"Win a Van", ticket price 150). -/
theorem c5_navfail_fallback_witness :
    vanFallback ∈ (dcgScrape [vanCard] navFailEnv 0).raffles ∧
    vanFallback.title = vanCard.title :=
  ⟨(c5_navfail_fallback_and_errors [vanCard] navFailEnv 0 vanCard vanFallback
      (List.mem_cons_self _ _) rfl (by with_unfolding_all rfl)).1,
   (c5_navfail_fallback_and_errors [vanCard] navFailEnv 0 vanCard vanFallback
      (List.mem_cons_self _ _) rfl (by with_unfolding_all rfl)).2.1⟩

/-- C5 counterexample: The claim additionally asserts that the run's
error list contains one entry referencing the failed item; it does not: for
the "Win a Van" card whose detail navigation fails, the fallback record is
returned but the error list is empty (the navigation failure is only logged
to the console). -/
theorem c5_counterexample_no_error_entry :
    (dcgScrape [vanCard] navFailEnv 0).raffles = [vanFallback] ∧
    (dcgScrape [vanCard] navFailEnv 0).errors = [] ∧
    vanFallback.title = "Win a Van" ∧ vanFallback.ticketPrice = some 150 := by
  refine ⟨?_, ?_, rfl, rfl⟩ <;> with_unfolding_all rfl

end CarRaffleOdds
